import Mathlib

/-! # Verification of the homeplug_av Home Assistant integration

Shallow embedding of `custom_components/homeplug_av` and
`custom_components/powerline-stats`: the stats coordinator
(`coordinator.py`), the presence poller and index-map construction
(`__init__.py`), and the sensor value logic (`sensor.py`).

MAC addresses are strings.  Python dicts keyed by strings are modelled
either as `String → Option _` (dict assignment is pointwise function
update) or, where iteration/insertion order matters, as association
lists; Python sets are `Finset String`.  A backend call that returns
`None` is `none`; a call that raises is an `Except.error`. -/

namespace HomeplugAV

/-- Python `str.lower()`.  Core's `String.toLower` maps `Char.toLower`
over the string via well-founded recursion; it is restated here by
structural recursion over the character data so that concrete
instances evaluate inside the kernel. -/
def pyLower (s : String) : String := ⟨s.data.map Char.toLower⟩

/-- Python `key.startswith("_")`.  Core's `String.startsWith` walks
byte positions and is not kernel-reducible, so the one-character check
is restated on the character data. -/
def startsWithUnderscore (s : String) : Bool :=
  match s.data with
  | [] => false
  | c :: _ => c == '_'

/-- Entry of a `network_stats` reply list (`stats_list` in
`homeplug_av/coordinator.py`).  `mac = none` models a dict without a
`"mac"` key; an empty string models a present-but-falsy value. The
`isinstance(stat, dict)` guard of the source cannot fail in this model,
where every list element is a record. -/
structure Stat where
  mac : Option String
  to_rate : Option Int
  from_rate : Option Int
deriving DecidableEq, Repr

/-- Value stored in `mesh_data[key]` (`coordinator.py` lines 126-132). -/
structure MeshLink where
  source : String
  target : String
  tx_rate : Int
  rx_rate : Int
  last_seen : Nat
deriving DecidableEq, Repr

/-- Python dict `mesh_data`, as lookup by key. -/
abbrev MeshMap := String → Option MeshLink

/-- Result of one `poll_single_adapter` task as seen through
`asyncio.gather(..., return_exceptions=True)`: `Except.error` models a
task that raised, otherwise the `(mac, stats)` pair where the stats
list may be `none`. -/
abbrev PollResult := Except Unit (String × Option (List Stat))

/-- The dict value written for one peer observation by lines 126-132 of
`coordinator.py`: `source`/`target`, `tx_rate = stat.get("to_rate", 0)`,
`rx_rate = stat.get("from_rate", 0)`, `last_seen = now`.  The target is
`stat["mac"].lower()`; the `getD ""` is only reached on entries the
caller has already skipped. -/
def mkLink (source_mac : String) (stat : Stat) (now : Nat) : MeshLink :=
  { source := source_mac
    target := pyLower (stat.mac.getD "")
    tx_rate := stat.to_rate.getD 0
    rx_rate := stat.from_rate.getD 0
    last_seen := now }

/-- Body of the inner `for stat in stats_list` loop (lines 118-132):
skip a stat without a truthy `"mac"`, otherwise assign
`mesh_data[f"{source_mac}_{peer_mac}"]` with `peer_mac` lowercased. -/
def processStat (source_mac : String) (now : Nat) (mesh : MeshMap) (stat : Stat) : MeshMap :=
  match stat.mac with
  | none => mesh
  | some m =>
    if m = "" then mesh
    else
      let peer_mac := pyLower m
      let key := source_mac ++ "_" ++ peer_mac
      fun k => if k = key then some (mkLink source_mac stat now) else mesh k

/-- Body of the outer `for result in results` loop (lines 106-132): an
exception is logged and skipped, and so is a `None` or empty stats
list. -/
def processResult (now : Nat) (mesh : MeshMap) (r : PollResult) : MeshMap :=
  match r with
  | Except.error _ => mesh
  | Except.ok (source_mac, stats_list) =>
    match stats_list with
    | none => mesh
    | some l => if l.isEmpty then mesh else l.foldl (processStat source_mac now) mesh

/-- The `mesh_data` dict built by `_async_update_data`
(`coordinator.py` lines 89-132), starting from the empty dict of
line 89. -/
def buildMeshData (results : List PollResult) (now : Nat) : MeshMap :=
  results.foldl (processResult now) (fun _ => none)

/-- Line 142 of `coordinator.py`, `self.mesh_data = mesh_data`: the
coordinator's mesh table after a cycle is the freshly built dict; the
previous table is replaced wholesale and is never consulted. -/
def runCycleMesh (_prevMesh : MeshMap) (results : List PollResult) (now : Nat) : MeshMap :=
  buildMeshData results now

/-- Analysis helper: does processing `stat` reported by `source` write
the dict key `key`? -/
def statWritesKey (source key : String) (stat : Stat) : Bool :=
  match stat.mac with
  | none => false
  | some m =>
    if m = "" then false
    else if key = source ++ "_" ++ pyLower m then true else false

/-- Analysis helper: the stat whose write to `key` survives the inner
fold (the last matching element of the list), if any. -/
def lastWriteOpt (source key : String) : List Stat → Option Stat
  | [] => none
  | stat :: rest =>
    match lastWriteOpt source key rest with
    | some s => some s
    | none => if statWritesKey source key stat then some stat else none

/-- Analysis helper: the `(source, stat)` pair whose write to `key`
survives the whole cycle (the last one across all gathered results),
if any. -/
def lastWriteRes (key : String) : List PollResult → Option (String × Stat)
  | [] => none
  | r :: rest =>
    match lastWriteRes key rest with
    | some p => some p
    | none =>
      match r with
      | Except.error _ => none
      | Except.ok (_, none) => none
      | Except.ok (s, some l) =>
        if l.isEmpty then none else (lastWriteOpt s key l).map (fun st => (s, st))

/-- Lowercased MAC set of a discovery reply, as in
`{a["mac"].lower() for a in result}`. -/
def macSet (l : List String) : Finset String :=
  (l.map pyLower).toFinset

/-- Outcome of one presence cycle of `_poll_discover`
(`homeplug_av/__init__.py` lines 74-111, presence part): the new
`online_macs` set and whether the confirming second probe was issued. -/
structure PresenceOutcome where
  online : Finset String
  phase2Issued : Bool
deriving DecidableEq

/-- Presence part of `_poll_discover` (lines 76-111).  `result1` is the
first discovery reply (`none` when the call returned `None`, in which
case the cycle returns with `online_macs` untouched).  `result2` is the
reply the second probe would get; the code consults it only when
`maybe_lost` is non-empty, and merges it only when it is truthy
(non-`None` and non-empty).  Lines 109-111 then replace `online_macs`
with `new_set`. -/
def pollDiscoverPresence (online_macs : Finset String)
    (result1 result2 : Option (List String)) : PresenceOutcome :=
  match result1 with
  | none => { online := online_macs, phase2Issued := false }
  | some r1 =>
    let new_set := macSet r1
    let maybe_lost := online_macs \ new_set
    if maybe_lost = ∅ then { online := new_set, phase2Issued := false }
    else
      match result2 with
      | none => { online := new_set, phase2Issued := true }
      | some r2 =>
        if r2.isEmpty then { online := new_set, phase2Issued := true }
        else { online := new_set ∪ macSet r2, phase2Issued := true }

/-- The `index_map` value the setup code reads at line 161 of
`homeplug_av/__init__.py`: `hass.data[DOMAIN][entry.entry_id]["index_map"]`,
which the same setup call initialised to the empty dict at line 70.
The persisted `entry.options["index_map"]` (written at lines 175-178)
is never read back, so the map the allocation starts from is empty
regardless of what was persisted by an earlier setup. -/
def setupLoadedIndexMap (_persisted : List (String × Nat)) : List (String × Nat) := []

/-- Index-map construction of `async_setup_entry` (lines 161-172):
lowercase the existing keys, set `next_idx = max(values, default=0) + 1`,
then walk the discovered adapters in order and allocate `next_idx`
(post-incrementing) to each MAC not already mapped. -/
def buildIndexMap (existing_map : List (String × Nat)) (adapters : List String) :
    List (String × Nat) :=
  let lowered := existing_map.map (fun p => (pyLower p.1, p.2))
  let next_idx := (lowered.map Prod.snd).foldl max 0 + 1
  (adapters.foldl
    (fun st mac =>
      let mac_lc := pyLower mac
      if (st.1.lookup mac_lc).isSome then st
      else (st.1 ++ [(mac_lc, st.2)], st.2 + 1))
    (lowered, next_idx)).1

/-- Embedding of `_format_signal_level` (`sensor.py` lines 345-357).
The level-15 branch reproduces the source file's literal byte-for-byte:
the file contains the three characters `â`, `‰`, `¤` (a double-encoded
`≤`), not the single character `≤`. -/
def formatSignalLevel (level : Int) : String :=
  if level = 0 then "Not available"
  else if level = 15 then "â‰¤ -75 dB"
  else if level = 1 then "-10 to 0 dB"
  else
    let upper := -5 * level
    let lower := -5 * (level + 1)
    s!"{lower} to {upper} dB"

/-- Python value stored in a discover-list station field. -/
inductive PyVal where
  | vInt (i : Int)
  | vBool (b : Bool)
  | vStr (s : String)
deriving DecidableEq, Repr

/-- Python `str(value)`. -/
def PyVal.toStr : PyVal → String
  | .vInt i => toString i
  | .vBool b => if b then "True" else "False"
  | .vStr s => s

/-- Python truthiness of a field value. -/
def PyVal.truthy : PyVal → Bool
  | .vInt i => i != 0
  | .vBool b => b
  | .vStr s => s != ""

/-- Python int view of a field value; station signal levels are ints in
the source data, so the other constructors follow bool-to-int coercion
and never arise for string fields passed to the formatter. -/
def PyVal.toInt : PyVal → Int
  | .vInt i => i
  | .vBool b => if b then 1 else 0
  | .vStr _ => 0

/-- One entry of a discover-list `"stations"` list.  `mac = none`
models a station dict without a `"mac"` key (the code reads
`station.get("mac", "")`). -/
structure Station where
  mac : Option String
  fields : List (String × PyVal)
deriving DecidableEq, Repr

/-- Python `station.get(field_name)`: `none` when absent. -/
def Station.get (st : Station) (f : String) : Option PyVal :=
  st.fields.lookup f

/-- Inner loop of `PowerlineDiscoverListSensor.native_value`
(`sensor.py` lines 432-436): within one reporting adapter's station
list, return `str(value)` for the first station whose lowercased MAC
equals the sensor's MAC and whose field value is not `None`; keep
scanning otherwise. -/
def findFieldInStations (mac field : String) : List Station → Option String
  | [] => none
  | st :: rest =>
    if pyLower (st.mac.getD "") = mac then
      match st.get field with
      | some v => some v.toStr
      | none => findFieldInStations mac field rest
    else findFieldInStations mac field rest

/-- Middle loop (lines 428-436) over `discover_list_data.items()` in
insertion order. -/
def findFieldInDld (mac field : String) : List (String × List Station) → Option String
  | [] => none
  | (_, stations) :: rest =>
    match findFieldInStations mac field stations with
    | some v => some v
    | none => findFieldInDld mac field rest

/-- `PowerlineDiscoverListSensor.native_value` (lines 421-438) for a
single config entry whose `discover_list_data` is `dld`; falls back to
`"Unknown"` when the scan finds nothing. -/
def discoverListNativeValue (dld : List (String × List Station)) (mac field : String) :
    String :=
  (findFieldInDld mac field dld).getD "Unknown"

/-- Inner loop of `PowerlineDiscoverListBooleanSensor.native_value`
(lines 466-473): the first station whose MAC matches returns
immediately, `"Yes"`/`"No"` by truthiness of
`station.get(field, False)`. -/
def findBoolInStations (mac field : String) : List Station → Option String
  | [] => none
  | st :: rest =>
    if pyLower (st.mac.getD "") = mac then
      some (if ((st.get field).getD (PyVal.vBool false)).truthy then "Yes" else "No")
    else findBoolInStations mac field rest

/-- Middle loop of the boolean sensor over `discover_list_data`. -/
def findBoolInDld (mac field : String) : List (String × List Station) → Option String
  | [] => none
  | (_, stations) :: rest =>
    match findBoolInStations mac field stations with
    | some v => some v
    | none => findBoolInDld mac field rest

/-- `PowerlineDiscoverListBooleanSensor.native_value` (lines 459-475);
falls back to `"No"` when the scan finds nothing. -/
def discoverListBoolValue (dld : List (String × List Station)) (mac field : String) :
    String :=
  (findBoolInDld mac field dld).getD "No"

/-- Inner loop of `PowerlineDiscoverListSignalSensor.native_value`
(lines 489-496): the first station whose MAC matches returns
immediately with the formatted `station.get(field, 0)`. -/
def findSignalInStations (mac field : String) : List Station → Option String
  | [] => none
  | st :: rest =>
    if pyLower (st.mac.getD "") = mac then
      some (formatSignalLevel ((st.get field).getD (PyVal.vInt 0)).toInt)
    else findSignalInStations mac field rest

/-- Middle loop of the signal sensor over `discover_list_data`. -/
def findSignalInDld (mac field : String) : List (String × List Station) → Option String
  | [] => none
  | (_, stations) :: rest =>
    match findSignalInStations mac field stations with
    | some v => some v
    | none => findSignalInDld mac field rest

/-- `PowerlineDiscoverListSignalSensor.native_value` (lines 482-498);
falls back to `"Unknown"` when the scan finds nothing. -/
def discoverListSignalValue (dld : List (String × List Station)) (mac field : String) :
    String :=
  (findSignalInDld mac field dld).getD "Unknown"

/-- State of `PowerlineDataUpdateCoordinator` relevant to which
adapters get polled: the accumulated `_known_macs` set and the key set
of `self.data` (the dict returned by the previous cycle; `none` before
the first refresh; every value is `{"last_seen": now}`, so only the
keys are modelled). -/
structure CoordState where
  knownMacs : Finset String
  dataKeys : Option (Finset String)
deriving DecidableEq

/-- Python truthiness of `self.data` at line 75 of
`homeplug_av/coordinator.py`: `None` and the empty dict are falsy. -/
def dataTruthy : Option (Finset String) → Bool
  | none => false
  | some keys => if keys = ∅ then false else true

/-- Lines 74-85 of `homeplug_av/coordinator.py`: grow `_known_macs`
with the non-underscore-prefixed keys of the previous cycle's data and
with the lowercased MACs of the initially discovered adapters kept in
`hass.data`. -/
def updateKnownMacs (st : CoordState) (initial_adapters : List String) : Finset String :=
  let k1 :=
    if dataTruthy st.dataKeys then
      st.knownMacs ∪ (st.dataKeys.getD ∅).filter (fun k => startsWithUnderscore k = false)
    else st.knownMacs
  k1 ∪ macSet initial_adapters

/-- One stats cycle of `_async_update_data`, projected to the polled
set: tasks are created for exactly the members of the updated
`_known_macs` (line 100, one task per set element), and the returned
`adapter_data` has exactly those MACs as keys (lines 137-139).  The
first component is the polled set, the second the successor state. -/
def statsCyclePolled (st : CoordState) (initial_adapters : List String) :
    Finset String × CoordState :=
  let known := updateKnownMacs st initial_adapters
  (known, { knownMacs := known, dataKeys := some known })

/-- Polled sets of successive stats cycles starting from `st`, one list
element (the `hass.data` adapters seen by that cycle) per cycle. -/
def runCyclesPolled (st : CoordState) : List (List String) → List (Finset String)
  | [] => []
  | a :: rest =>
    let p := statsCyclePolled st a
    p.1 :: runCyclesPolled p.2 rest

/-- Trace of the retry loop of the powerline-stats coordinator
(`powerline-stats/coordinator.py` lines 62-68): the final `stats_list`,
how many backend calls were made, and the `asyncio.sleep` durations in
milliseconds, in order. -/
structure RetryTrace where
  result : Option (List Stat)
  callsMade : Nat
  sleepsMs : List Nat
deriving DecidableEq, Repr

/-- Python truthiness of `stats_list`: `None` and `[]` are falsy. -/
def listTruthy : Option (List Stat) → Bool
  | none => false
  | some l => !l.isEmpty

/-- The `for attempt in range(3)` retry loop (lines 62-68): call the
backend, break on a truthy result, otherwise sleep
`0.2 * (attempt + 1)` seconds (modelled as `200 * (attempt + 1)` ms)
and try again.  `call n` is the backend's reply to the n-th (0-based)
attempt. -/
def retryLoop (call : Nat → Option (List Stat)) : RetryTrace :=
  (List.range 3).foldl
    (fun tr attempt =>
      if listTruthy tr.result then tr
      else
        let r := call attempt
        if listTruthy r then
          { result := r, callsMade := tr.callsMade + 1, sleepsMs := tr.sleepsMs }
        else
          { result := r, callsMade := tr.callsMade + 1
            sleepsMs := tr.sleepsMs ++ [200 * (attempt + 1)] })
    { result := none, callsMade := 0, sleepsMs := [] }

/-- Entry of the powerline-stats coordinator's data dict
(lines 92-98). -/
structure PSEntry where
  to_rate : Option Int
  from_rate : Option Int
  last_seen : Nat
deriving DecidableEq, Repr

/-- Python dict assignment `new_data[mac_lc] = entry` on an association
list that preserves insertion order. -/
def upsert (d : List (String × PSEntry)) (k : String) (v : PSEntry) :
    List (String × PSEntry) :=
  if (d.lookup k).isSome then d.map (fun p => if p.1 = k then (k, v) else p)
  else d ++ [(k, v)]

/-- `_async_update_data` of the powerline-stats coordinator
(lines 55-102): run the retry loop; a falsy final result returns the
previous data (`self.data or {}`); otherwise merge the well-formed
stats (dicts with a truthy `"mac"`) into a copy of the previous data,
keyed by lowercased MAC. -/
def psUpdateData (prev : Option (List (String × PSEntry)))
    (call : Nat → Option (List Stat)) (now : Nat) : List (String × PSEntry) :=
  let tr := retryLoop call
  if listTruthy tr.result = false then prev.getD []
  else
    let stats_list := tr.result.getD []
    let valid_stats := stats_list.filter (fun st => !(st.mac.getD "").isEmpty)
    let new_data := prev.getD []
    valid_stats.foldl
      (fun nd st =>
        upsert nd (pyLower (st.mac.getD ""))
          { to_rate := st.to_rate, from_rate := st.from_rate, last_seen := now })
      new_data

/-- Example mesh table from a prior cycle: one link recorded for
(aa:aa, bb:bb). -/
def exPrevMesh : MeshMap :=
  fun k => if k = "aa:aa_bb:bb" then some ⟨"aa:aa", "bb:bb", 100, 50, 1⟩ else none

/-- Example coordinator state in which aa:aa and bb:bb have both been
seen (bb:bb may meanwhile have dropped out of `online_macs`, which
`_async_update_data` never reads). -/
def exCoordState : CoordState :=
  { knownMacs := {"aa", "bb"}, dataKeys := some {"aa", "bb"} }

/-- Example discover-list data in which only bb:bb reports, and only
about itself: no station entry for aa:aa exists anywhere. -/
def exDldNoEntry : List (String × List Station) :=
  [("bb:bb", [{ mac := some "bb:bb", fields := [("cco", PyVal.vBool true)] }])]

/-- Example discover-list data in which the first reporting adapter has
no entry for aa:aa, while the second and third both do: the scan must
return the second reporter's value 5, not the third's 9. -/
def exDldFirstFound : List (String × List Station) :=
  [("bb:bb", [{ mac := some "bb:bb", fields := [("tei", PyVal.vInt 3)] }]),
   ("cc:cc", [{ mac := some "aa:aa", fields := [("tei", PyVal.vInt 5)] }]),
   ("dd:dd", [{ mac := some "aa:aa", fields := [("tei", PyVal.vInt 9)] }])]

/-- Example discover-list data in which the first station matching
aa:aa lacks the `"tei"` field (its value is `None`), so the scan must
continue to the next matching station. -/
def exDldSkipNone : List (String × List Station) :=
  [("bb:bb",
    [{ mac := some "aa:aa", fields := [("snid", PyVal.vInt 1)] },
     { mac := some "aa:aa", fields := [("tei", PyVal.vInt 4)] }])]

/-! ## Analysis lemmas and claim theorems -/

lemma processStat_apply (source_mac : String) (now : Nat) (mesh : MeshMap) (stat : Stat)
    (k : String) :
    processStat source_mac now mesh stat k =
      if statWritesKey source_mac k stat then some (mkLink source_mac stat now) else mesh k := by
  cases h : stat.mac with
  | none => simp [processStat, statWritesKey, h]
  | some m =>
    by_cases hm : m = ""
    · simp [processStat, statWritesKey, h, hm]
    · by_cases hk : k = source_mac ++ "_" ++ pyLower m
      · simp [processStat, statWritesKey, h, hm, hk]
      · simp [processStat, statWritesKey, h, hm, hk]

lemma foldl_processStat_apply (source : String) (now : Nat) (l : List Stat) (mesh : MeshMap)
    (k : String) :
    (l.foldl (processStat source now) mesh) k =
      (lastWriteOpt source k l).elim (mesh k) (fun s => some (mkLink source s now)) := by
  induction l generalizing mesh with
  | nil => simp [lastWriteOpt]
  | cons stat rest ih =>
    simp only [List.foldl_cons, lastWriteOpt]
    rw [ih]
    cases hrest : lastWriteOpt source k rest with
    | some s => simp
    | none =>
      by_cases hw : statWritesKey source k stat
      · simp [hw, processStat_apply]
      · simp [hw, processStat_apply]

lemma foldl_processResult_apply (results : List PollResult) (now : Nat) (mesh : MeshMap)
    (k : String) :
    (results.foldl (processResult now) mesh) k =
      (lastWriteRes k results).elim (mesh k) (fun p => some (mkLink p.1 p.2 now)) := by
  induction results generalizing mesh with
  | nil => simp [lastWriteRes]
  | cons r rest ih =>
    simp only [List.foldl_cons, lastWriteRes]
    rw [ih]
    cases hrest : lastWriteRes k rest with
    | some p => simp
    | none =>
      simp only [Option.elim]
      match r with
      | Except.error e => simp [processResult]
      | Except.ok (s, none) => simp [processResult]
      | Except.ok (s, some l) =>
        by_cases hl : l.isEmpty
        · simp [processResult, hl]
        · simp only [processResult, hl, if_neg, Bool.false_eq_true, if_false]
          rw [foldl_processStat_apply]
          cases hlast : lastWriteOpt s k l with
          | some st => simp
          | none => simp

lemma buildMeshData_apply (results : List PollResult) (now : Nat) (k : String) :
    buildMeshData results now k =
      (lastWriteRes k results).map (fun p => mkLink p.1 p.2 now) := by
  rw [buildMeshData, foldl_processResult_apply]
  cases lastWriteRes k results <;> simp

lemma retryLoop_eq (call : Nat → Option (List Stat)) :
    retryLoop call =
      if listTruthy (call 0) then { result := call 0, callsMade := 1, sleepsMs := [] }
      else if listTruthy (call 1) then { result := call 1, callsMade := 2, sleepsMs := [200] }
      else if listTruthy (call 2) then
        { result := call 2, callsMade := 3, sleepsMs := [200, 400] }
      else { result := call 2, callsMade := 3, sleepsMs := [200, 400, 600] } := by
  rw [retryLoop]
  have hr : List.range 3 = [0, 1, 2] := rfl
  rw [hr]
  simp only [List.foldl_cons, List.foldl_nil]
  cases h0 : listTruthy (call 0) <;> cases h1 : listTruthy (call 1) <;>
      cases h2 : listTruthy (call 2) <;>
    · simp only [listTruthy] at h0 h1 h2
      simp [h0, h1, h2, listTruthy]

lemma knownMacs_subset_polled (st : CoordState) (adapters : List String) :
    st.knownMacs ⊆ (statsCyclePolled st adapters).1 := by
  intro m hm
  simp [statsCyclePolled, updateKnownMacs]
  by_cases h : dataTruthy st.dataKeys <;> simp [h] <;> tauto

lemma knownMacs_subset_all_polled (inputs : List (List String)) (st : CoordState) :
    ∀ s ∈ runCyclesPolled st inputs, st.knownMacs ⊆ s := by
  induction inputs generalizing st with
  | nil => simp [runCyclesPolled]
  | cons a rest ih =>
    intro s hs
    rw [runCyclesPolled] at hs
    rcases List.mem_cons.mp hs with h | h
    · subst h; exact knownMacs_subset_polled st a
    · exact (knownMacs_subset_polled st a).trans (ih (statsCyclePolled st a).2 s h)

lemma runCyclesPolled_pairwise (inputs : List (List String)) (st : CoordState) :
    List.Pairwise (· ⊆ ·) (runCyclesPolled st inputs) := by
  induction inputs generalizing st with
  | nil => simp [runCyclesPolled]
  | cons a rest ih =>
    rw [runCyclesPolled]
    refine List.Pairwise.cons ?_ (ih _)
    intro s hs
    exact knownMacs_subset_all_polled rest (statsCyclePolled st a).2 s hs

lemma findFieldInStations_eq_none (mac field : String) (l : List Station)
    (h : ∀ st ∈ l, pyLower (st.mac.getD "") ≠ mac) :
    findFieldInStations mac field l = none := by
  induction l with
  | nil => rfl
  | cons st rest ih =>
    have hst := h st (List.mem_cons_self st rest)
    rw [findFieldInStations, if_neg hst]
    exact ih (fun s hs => h s (List.mem_cons_of_mem st hs))

lemma findBoolInStations_eq_none (mac field : String) (l : List Station)
    (h : ∀ st ∈ l, pyLower (st.mac.getD "") ≠ mac) :
    findBoolInStations mac field l = none := by
  induction l with
  | nil => rfl
  | cons st rest ih =>
    have hst := h st (List.mem_cons_self st rest)
    rw [findBoolInStations, if_neg hst]
    exact ih (fun s hs => h s (List.mem_cons_of_mem st hs))

lemma findSignalInStations_eq_none (mac field : String) (l : List Station)
    (h : ∀ st ∈ l, pyLower (st.mac.getD "") ≠ mac) :
    findSignalInStations mac field l = none := by
  induction l with
  | nil => rfl
  | cons st rest ih =>
    have hst := h st (List.mem_cons_self st rest)
    rw [findSignalInStations, if_neg hst]
    exact ih (fun s hs => h s (List.mem_cons_of_mem st hs))

lemma findFieldInDld_eq_none (mac field : String) (dld : List (String × List Station))
    (h : ∀ p ∈ dld, ∀ st ∈ p.2, pyLower (st.mac.getD "") ≠ mac) :
    findFieldInDld mac field dld = none := by
  induction dld with
  | nil => rfl
  | cons p rest ih =>
    obtain ⟨r, stations⟩ := p
    have hs : findFieldInStations mac field stations = none :=
      findFieldInStations_eq_none mac field stations (h (r, stations) (List.mem_cons_self _ _))
    simp only [findFieldInDld, hs]
    exact ih (fun q hq => h q (List.mem_cons_of_mem _ hq))

lemma findBoolInDld_eq_none (mac field : String) (dld : List (String × List Station))
    (h : ∀ p ∈ dld, ∀ st ∈ p.2, pyLower (st.mac.getD "") ≠ mac) :
    findBoolInDld mac field dld = none := by
  induction dld with
  | nil => rfl
  | cons p rest ih =>
    obtain ⟨r, stations⟩ := p
    have hs : findBoolInStations mac field stations = none :=
      findBoolInStations_eq_none mac field stations (h (r, stations) (List.mem_cons_self _ _))
    simp only [findBoolInDld, hs]
    exact ih (fun q hq => h q (List.mem_cons_of_mem _ hq))

lemma findSignalInDld_eq_none (mac field : String) (dld : List (String × List Station))
    (h : ∀ p ∈ dld, ∀ st ∈ p.2, pyLower (st.mac.getD "") ≠ mac) :
    findSignalInDld mac field dld = none := by
  induction dld with
  | nil => rfl
  | cons p rest ih =>
    obtain ⟨r, stations⟩ := p
    have hs : findSignalInStations mac field stations = none :=
      findSignalInStations_eq_none mac field stations (h (r, stations) (List.mem_cons_self _ _))
    simp only [findSignalInDld, hs]
    exact ih (fun q hq => h q (List.mem_cons_of_mem _ hq))

/-- C1: the spec requires `indexFor` to return the same index for a MAC
across setups, the persisted identity map being reloaded; the code's own
comment (lines 157-159) says the mapping is stored in the config-entry
options "so it survives Home Assistant restarts".  But line 161 reads
the map from `hass.data`, which line 70 of the same setup call has just
initialised to `{}`, so the persisted options are never read back: with
persisted map aa:aa→1, bb:bb→2 and a later setup discovering the same
adapters in the order [bb:bb, aa:aa], the allocation restarts from an
empty map and assigns bb:bb→1, aa:aa→2. -/
theorem C1_index_allocation_ignores_persisted_map :
    setupLoadedIndexMap [("aa:aa", 1), ("bb:bb", 2)] = []
    ∧ (buildIndexMap (setupLoadedIndexMap [("aa:aa", 1), ("bb:bb", 2)])
        ["bb:bb", "aa:aa"]).lookup "aa:aa" = some 2
    ∧ (buildIndexMap (setupLoadedIndexMap [("aa:aa", 1), ("bb:bb", 2)])
        ["bb:bb", "aa:aa"]).lookup "bb:bb" = some 1 := by
  refine ⟨rfl, by decide, by decide⟩

/-- C2 counterexample: a mesh link recorded for (aa:aa, bb:bb) in a
prior cycle is gone after a later cycle in which aa:aa's stats call
returns no data, contradicting the claim that link entries are never
deleted by an update cycle: `_async_update_data` rebuilds `mesh_data`
from scratch (line 89) and replaces `self.mesh_data` wholesale
(line 142). -/
theorem C2_stale_link_deleted_counterexample :
    exPrevMesh "aa:aa_bb:bb" = some ⟨"aa:aa", "bb:bb", 100, 50, 1⟩
    ∧ runCycleMesh exPrevMesh [Except.ok ("aa:aa", none)] 2 "aa:aa_bb:bb" = none :=
  ⟨rfl, rfl⟩

/-- C2 amended: the mesh table is rebuilt from scratch every cycle; an
entry keyed `k` survives a cycle only if some successful stats reply of
that cycle writes `k` again, so a key not written this cycle — in
particular every link whose source's stats call failed or returned no
data — is absent afterwards, whatever the previous table held. -/
theorem C2_unrefreshed_links_dropped (prevMesh : MeshMap) (results : List PollResult)
    (now : Nat) (k : String) (h : lastWriteRes k results = none) :
    runCycleMesh prevMesh results now k = none := by
  rw [runCycleMesh, buildMeshData_apply, h]
  rfl

/-- C2 witness: the amended theorem applied to the counterexample cycle. -/
theorem C2_unrefreshed_links_dropped_witness :
    runCycleMesh exPrevMesh [Except.ok ("aa:aa", none)] 2 "aa:aa_bb:bb" = none :=
  C2_unrefreshed_links_dropped exPrevMesh [Except.ok ("aa:aa", none)] 2 "aa:aa_bb:bb" rfl

/-- C3: two-probe loss confirmation.  With OnlineSet {a,b,c} and
Phase 1 returning {a,c}: if Phase 2 returns {b} the final set is
{a,b,c}, and if Phase 2 returns {} the final set is {a,c}.  In general
a MAC still online is dropped only if it is absent from the Phase-1
reply and from any list the Phase-2 probe returned (and the Phase-2
probe was indeed issued that cycle); given a Phase-1 reply, the
Phase-2 probe is issued exactly when OnlineSet minus the Phase-1
result is non-empty, and never when Phase 1 returned `None`. -/
theorem C3_two_probe_loss_confirmation :
    ((pollDiscoverPresence {"a", "b", "c"} (some ["a", "c"]) (some ["b"])).online
        = {"a", "b", "c"}
      ∧ (pollDiscoverPresence {"a", "b", "c"} (some ["a", "c"]) (some [])).online
        = {"a", "c"})
    ∧ (∀ (online : Finset String) (r1 r2 : Option (List String)) (m : String),
        m ∈ online → m ∉ (pollDiscoverPresence online r1 r2).online →
          (∀ l1, r1 = some l1 → m ∉ macSet l1)
          ∧ (∀ l2, r2 = some l2 → m ∉ macSet l2)
          ∧ (pollDiscoverPresence online r1 r2).phase2Issued = true)
    ∧ (∀ (online : Finset String) (l1 : List String) (r2 : Option (List String)),
        (pollDiscoverPresence online (some l1) r2).phase2Issued = true
          ↔ online \ macSet l1 ≠ ∅)
    ∧ (∀ (online : Finset String) (r2 : Option (List String)),
        (pollDiscoverPresence online none r2).phase2Issued = false) := by
  refine ⟨⟨by decide, by decide⟩, ?_, ?_, ?_⟩
  · intro online r1 r2 m hm hrem
    match r1 with
    | none => exact absurd hm hrem
    | some l1 =>
      by_cases hml : online \ macSet l1 = ∅
      · exfalso
        have hsub : online ⊆ macSet l1 := Finset.sdiff_eq_empty_iff_subset.mp hml
        exact hrem (by simp [pollDiscoverPresence, hml]; exact hsub hm)
      · have hm1 : m ∉ macSet l1 := by
          intro hmem
          apply hrem
          match r2 with
          | none => simp [pollDiscoverPresence, hml]; exact hmem
          | some l2 =>
            by_cases he : l2.isEmpty
            · simp [pollDiscoverPresence, hml, he]; exact hmem
            · simp [pollDiscoverPresence, hml, he]; exact Or.inl hmem
        refine ⟨fun l1h h1 => by cases h1; exact hm1, ?_, ?_⟩
        · intro l2 h2
          subst h2
          by_cases he : l2.isEmpty
          · have : l2 = [] := by simpa using he
            subst this
            simp [macSet]
          · intro hmem2
            apply hrem
            simp [pollDiscoverPresence, hml, he]
            exact Or.inr hmem2
        · match r2 with
          | none => simp [pollDiscoverPresence, hml]
          | some l2 =>
            by_cases he : l2.isEmpty
            · simp [pollDiscoverPresence, hml, he]
            · simp [pollDiscoverPresence, hml, he]
  · intro online l1 r2
    by_cases hml : online \ macSet l1 = ∅
    · simp [pollDiscoverPresence, hml]
    · match r2 with
      | none => simp [pollDiscoverPresence, hml]
      | some l2 =>
        by_cases he : l2.isEmpty
        · simp [pollDiscoverPresence, hml, he]
        · simp [pollDiscoverPresence, hml, he]
  · intro online r2
    simp [pollDiscoverPresence]

/-- C3 witness: the removal clause at OnlineSet {a,b}, both probes
returning [a]: b is dropped, is indeed absent from the Phase-1 reply,
and the second probe was issued. -/
theorem C3_two_probe_loss_confirmation_witness :
    "b" ∉ macSet ["a"]
    ∧ (pollDiscoverPresence {"a", "b"} (some ["a"]) (some ["a"])).phase2Issued = true := by
  have h := C3_two_probe_loss_confirmation.2.1 {"a", "b"} (some ["a"]) (some ["a"]) "b"
    (by decide) (by decide)
  exact ⟨h.1 ["a"] rfl, h.2.2⟩

/-- C4 counterexample: the claim says an empty Phase-1 result leaves
OnlineSet untouched, but only a `None` reply aborts the cycle (line 86
checks `is None`): with prior OnlineSet {aa} and both probes returning
the empty list, the final OnlineSet is ∅, not {aa}. -/
theorem C4_empty_phase1_clears_counterexample :
    (pollDiscoverPresence {"aa"} (some []) (some [])).online = (∅ : Finset String)
    ∧ (pollDiscoverPresence {"aa"} (some []) (some [])).online ≠ {"aa"} := by decide

/-- C4 amended: only a Phase-1 probe that fails (returns `None`) leaves
OnlineSet exactly as it was; an empty Phase-1 result is not
special-cased — it marks every online adapter maybe-lost and issues the
confirming second probe, whose outcome decides the final set. -/
theorem C4_none_phase1_preserves_online :
    (∀ (online : Finset String) (r2 : Option (List String)),
      (pollDiscoverPresence online none r2).online = online)
    ∧ (∀ (online : Finset String) (r2 : Option (List String)), online.Nonempty →
        (pollDiscoverPresence online (some []) r2).phase2Issued = true) := by
  constructor
  · intro online r2
    simp [pollDiscoverPresence]
  · intro online r2 hne
    have h : online \ macSet [] ≠ ∅ := by
      simp [macSet]
      exact Finset.nonempty_iff_ne_empty.mp hne
    match r2 with
    | none => simp [pollDiscoverPresence, macSet] at h ⊢; simp [h]
    | some l2 =>
      simp [pollDiscoverPresence, macSet] at h ⊢
      simp [h]
      split <;> rfl

/-- C4 witness: a failed probe preserves OnlineSet {aa}; an empty first
reply issues the confirming probe. -/
theorem C4_none_phase1_preserves_online_witness :
    (pollDiscoverPresence {"aa"} none none).online = {"aa"}
    ∧ (pollDiscoverPresence {"aa"} (some []) none).phase2Issued = true :=
  ⟨C4_none_phase1_preserves_online.1 {"aa"} none,
    C4_none_phase1_preserves_online.2 {"aa"} none ⟨"aa", by decide⟩⟩

/-- C5: the powerline-stats retry loop makes at most 3 backend calls;
the loop stops at the first truthy reply, having slept 200ms times the
(1-based) number of each failed attempt between attempts; and when all
three attempts come back falsy the cycle returns its previous data
(`self.data or {}`) instead of raising. -/
theorem C5_retry_three_attempts_with_backoff :
    ∀ (call : Nat → Option (List Stat)) (prev : Option (List (String × PSEntry))) (now : Nat),
      (retryLoop call).callsMade ≤ 3
      ∧ (listTruthy (call 0) = true →
          retryLoop call = { result := call 0, callsMade := 1, sleepsMs := [] })
      ∧ (listTruthy (call 0) = false → listTruthy (call 1) = true →
          retryLoop call = { result := call 1, callsMade := 2, sleepsMs := [200] })
      ∧ (listTruthy (call 0) = false → listTruthy (call 1) = false →
          listTruthy (call 2) = true →
          retryLoop call = { result := call 2, callsMade := 3, sleepsMs := [200, 400] })
      ∧ (listTruthy (call 0) = false → listTruthy (call 1) = false →
          listTruthy (call 2) = false →
          retryLoop call = { result := call 2, callsMade := 3, sleepsMs := [200, 400, 600] }
          ∧ psUpdateData prev call now = prev.getD []) := by
  intro call prev now
  refine ⟨?_, ?_, ?_, ?_, ?_⟩
  · rw [retryLoop_eq]
    cases h0 : listTruthy (call 0) <;> cases h1 : listTruthy (call 1) <;>
      cases h2 : listTruthy (call 2) <;> simp [h0, h1, h2]
  · intro h0; rw [retryLoop_eq]; simp [h0]
  · intro h0 h1; rw [retryLoop_eq]; simp [h0, h1]
  · intro h0 h1 h2; rw [retryLoop_eq]; simp [h0, h1, h2]
  · intro h0 h1 h2
    constructor
    · rw [retryLoop_eq]; simp [h0, h1, h2]
    · rw [psUpdateData, retryLoop_eq]
      simp [h0, h1, h2]

/-- C5 witness: with every attempt returning `None` the loop makes 3
calls, sleeps 200/400/600 ms, and the update returns the (empty) prior
data. -/
theorem C5_retry_three_attempts_with_backoff_witness :
    retryLoop (fun _ => none)
      = { result := none, callsMade := 3, sleepsMs := [200, 400, 600] }
    ∧ psUpdateData none (fun _ => none) 5 = [] := by
  have h := (C5_retry_three_attempts_with_backoff (fun _ => none) none 5).2.2.2.2 rfl rfl rfl
  exact ⟨h.1, h.2⟩

/-- C6 counterexample: the stats cycle polls `_known_macs`, not
OnlineSet.  In `exCoordState` both aa and bb are known (bb from earlier
data) while the presence poller's `online_macs` has shrunk to {aa}: the
cycle still polls bb, so the polled set is not {aa}; and a MAC cc that
is online but never appeared in initial discovery or prior data is not
polled. -/
theorem C6_polled_set_differs_from_online_counterexample :
    "bb" ∈ (statsCyclePolled exCoordState ["aa"]).1
    ∧ (statsCyclePolled exCoordState ["aa"]).1 ≠ ({"aa"} : Finset String)
    ∧ "cc" ∉ (statsCyclePolled { knownMacs := {"aa"}, dataKeys := some {"aa"} } ["aa"]).1 := by
  decide

/-- C6 amended: the set of adapters polled in a stats cycle is exactly
the accumulated known-MAC set — previous `_known_macs`, plus the
non-underscore keys of the previous cycle's (truthy) data, plus the
lowercased initially-discovered adapters — independent of OnlineSet;
each such MAC is polled once (one task per set element). -/
theorem C6_polled_set_is_known_macs :
    ∀ (st : CoordState) (adapters : List String) (mac : String),
      mac ∈ (statsCyclePolled st adapters).1 ↔
        (mac ∈ st.knownMacs
          ∨ (∃ keys, st.dataKeys = some keys ∧ mac ∈ keys
              ∧ startsWithUnderscore mac = false)
          ∨ mac ∈ macSet adapters) := by
  intro st adapters mac
  rcases st with ⟨known, dk⟩
  match dk with
  | none =>
    simp [statsCyclePolled, updateKnownMacs, dataTruthy]
  | some keys =>
    by_cases hk : keys = (∅ : Finset String)
    · subst hk
      simp [statsCyclePolled, updateKnownMacs, dataTruthy]
    · simp [statsCyclePolled, updateKnownMacs, dataTruthy, hk, Finset.mem_filter]

/-- C7: every peer observation of a successful stats reply is stored
under the key `source_peer` with `tx_rate` from `to_rate`, `rx_rate`
from `from_rate` and `last_seen = now` — stated for the observation
whose write to that key is the surviving (last) one, which is every
observation when keys are reported once per cycle — together with the
spec's concrete scenario: aa:aa reporting peer bb:bb with to_rate 100
and from_rate 50 yields link (aa:aa, bb:bb) with tx 100 and rx 50. -/
theorem C7_peer_observation_stored :
    (∀ (results : List PollResult) (now : Nat) (R : String) (l : List Stat)
        (stat : Stat) (Y : String),
        Except.ok (R, some l) ∈ results → stat ∈ l → stat.mac = some Y → Y ≠ "" →
        lastWriteRes (R ++ "_" ++ pyLower Y) results = some (R, stat) →
        buildMeshData results now (R ++ "_" ++ pyLower Y)
          = some { source := R, target := pyLower Y, tx_rate := stat.to_rate.getD 0,
                   rx_rate := stat.from_rate.getD 0, last_seen := now })
    ∧ buildMeshData [Except.ok ("aa:aa", some [⟨some "bb:bb", some 100, some 50⟩])] 7
        "aa:aa_bb:bb"
        = some ⟨"aa:aa", "bb:bb", 100, 50, 7⟩ := by
  constructor
  · intro results now R l stat Y hmem hstat hmac hY hlast
    rw [buildMeshData_apply, hlast]
    simp [mkLink, hmac]
  · decide

/-- C7 witness: the general clause applied to the spec's aa:aa/bb:bb
scenario. -/
theorem C7_peer_observation_stored_witness :
    buildMeshData [Except.ok ("aa:aa", some [⟨some "bb:bb", some 100, some 50⟩])] 3
      ("aa:aa" ++ "_" ++ pyLower "bb:bb")
      = some { source := "aa:aa", target := pyLower "bb:bb", tx_rate := 100,
               rx_rate := 50, last_seen := 3 } :=
  C7_peer_observation_stored.1 [Except.ok ("aa:aa", some [⟨some "bb:bb", some 100, some 50⟩])]
    3 "aa:aa" [⟨some "bb:bb", some 100, some 50⟩] ⟨some "bb:bb", some 100, some 50⟩ "bb:bb"
    (by simp) (by simp) rfl (by decide) (by decide)

/-- C8: `_format_signal_level` matches the claimed bands for levels 0,
1 and 2-14 (listed exhaustively), but at level 15 the source literal is
the double-encoded three-character sequence `â` `‰` `¤` followed by
" -75 dB", not the claimed "≤ -75 dB". -/
theorem C8_signal_level_formatting :
    formatSignalLevel 0 = "Not available"
    ∧ formatSignalLevel 1 = "-10 to 0 dB"
    ∧ formatSignalLevel 2 = "-15 to -10 dB"
    ∧ formatSignalLevel 3 = "-20 to -15 dB"
    ∧ formatSignalLevel 4 = "-25 to -20 dB"
    ∧ formatSignalLevel 5 = "-30 to -25 dB"
    ∧ formatSignalLevel 6 = "-35 to -30 dB"
    ∧ formatSignalLevel 7 = "-40 to -35 dB"
    ∧ formatSignalLevel 8 = "-45 to -40 dB"
    ∧ formatSignalLevel 9 = "-50 to -45 dB"
    ∧ formatSignalLevel 10 = "-55 to -50 dB"
    ∧ formatSignalLevel 11 = "-60 to -55 dB"
    ∧ formatSignalLevel 12 = "-65 to -60 dB"
    ∧ formatSignalLevel 13 = "-70 to -65 dB"
    ∧ formatSignalLevel 14 = "-75 to -70 dB"
    ∧ formatSignalLevel 15 = "â‰¤ -75 dB"
    ∧ formatSignalLevel 15 ≠ "≤ -75 dB" := by decide

/-- C9 counterexample: with discover-list data that contains no station
entry for aa:aa, the role-flag (boolean) sensor reports "No", not the
claimed default "Unknown" (sensor.py line 475). -/
theorem C9_role_flag_default_counterexample :
    discoverListBoolValue exDldNoEntry "aa:aa" "cco" = "No"
    ∧ discoverListBoolValue exDldNoEntry "aa:aa" "cco" ≠ "Unknown" := by decide

/-- C9 amended: the detail value for MAC X is found by scanning every
adapter's latest report for a station whose MAC equals X and returning
the first hit; when no adapter's report contains an entry for X the
TEI/SNID and signal-level sensors default to "Unknown" while the
role-flag sensors default to "No".  Concretely: the scan returns the
first reporter's hit (5, not 9), skips a matching station whose field
is absent (`None`) in favour of a later one, and a role flag present
and true reads "Yes". -/
theorem C9_detail_scan_and_defaults :
    (∀ (dld : List (String × List Station)) (mac field : String),
        (∀ p ∈ dld, ∀ st ∈ p.2, pyLower (st.mac.getD "") ≠ mac) →
          discoverListNativeValue dld mac field = "Unknown"
          ∧ discoverListSignalValue dld mac field = "Unknown"
          ∧ discoverListBoolValue dld mac field = "No")
    ∧ discoverListNativeValue exDldFirstFound "aa:aa" "tei" = "5"
    ∧ discoverListNativeValue exDldSkipNone "aa:aa" "tei" = "4"
    ∧ discoverListBoolValue exDldNoEntry "bb:bb" "cco" = "Yes" := by
  refine ⟨?_, by decide, by decide, by decide⟩
  intro dld mac field h
  refine ⟨?_, ?_, ?_⟩
  · rw [discoverListNativeValue, findFieldInDld_eq_none mac field dld h]; rfl
  · rw [discoverListSignalValue, findSignalInDld_eq_none mac field dld h]; rfl
  · rw [discoverListBoolValue, findBoolInDld_eq_none mac field dld h]; rfl

/-- C9 witness: the no-entry clause applied to data in which only bb:bb
reports, and only about itself. -/
theorem C9_detail_scan_and_defaults_witness :
    discoverListNativeValue exDldNoEntry "aa:aa" "tei" = "Unknown"
    ∧ discoverListSignalValue exDldNoEntry "aa:aa" "signal_level" = "Unknown"
    ∧ discoverListBoolValue exDldNoEntry "aa:aa" "cco" = "No" := by
  have h1 := (C9_detail_scan_and_defaults.1 exDldNoEntry "aa:aa" "tei" (by decide)).1
  have h2 := (C9_detail_scan_and_defaults.1 exDldNoEntry "aa:aa" "signal_level" (by decide)).2.1
  have h3 := (C9_detail_scan_and_defaults.1 exDldNoEntry "aa:aa" "cco" (by decide)).2.2
  exact ⟨h1, h2, h3⟩

/-- C10: the polled set grows monotonically.  Each cycle's polled set
contains the previous `_known_macs`, the lowercased initially
discovered adapters, and the non-underscore keys of the previous
cycle's data; and across any run of successive cycles the polled sets
form a ⊆-increasing family (every earlier polled set is contained in
every later one — nothing is ever removed). -/
theorem C10_known_macs_monotone :
    (∀ (st : CoordState) (adapters : List String),
        st.knownMacs ⊆ (statsCyclePolled st adapters).1
        ∧ macSet adapters ⊆ (statsCyclePolled st adapters).1
        ∧ (st.dataKeys.getD ∅).filter (fun k => startsWithUnderscore k = false)
            ⊆ (statsCyclePolled st adapters).1)
    ∧ (∀ (st : CoordState) (inputs : List (List String)),
        List.Pairwise (· ⊆ ·) (runCyclesPolled st inputs)) := by
  constructor
  · intro st adapters
    refine ⟨knownMacs_subset_polled st adapters, ?_, ?_⟩
    · intro m hm
      simp [statsCyclePolled, updateKnownMacs]
      tauto
    · intro m hm
      match hdk : st.dataKeys with
      | none => rw [hdk] at hm; simp at hm
      | some keys =>
        rw [hdk] at hm
        simp [Finset.mem_filter] at hm
        by_cases hk : keys = (∅ : Finset String)
        · subst hk; simp at hm
        · simp [statsCyclePolled, updateKnownMacs, dataTruthy, hdk, hk, Finset.mem_filter]
          tauto
  · intro st inputs
    exact runCyclesPolled_pairwise inputs st

end HomeplugAV
